/-
Verification of the sector-rotation scoring and ranking engine.

This file shallowly embeds the scoring core of the repository:
  * `sector_rotation_scanner.py` (and its line-for-line identical copy
    `scripts/sector_rotation_scanner.py`): per-sector momentum analysis,
    trend classification and sector ranking;
  * `smart_sector_breakout_scanner.py`: the quick sector-strength
    analysis, the breakout quality scorer, the news-sentiment summary
    and adjustment, and the two-stage pipeline of `main`.

Modelling conventions:
  * Python floats are modelled as rationals (`ℚ`).  Every numeric
    constant appearing in the source (0.5, 1.5, 0.2, ...) is exactly
    representable in binary floating point or only compared against,
    so the algorithmic structure is unchanged.
  * A pandas DataFrame of daily bars is modelled as a `List Bar`,
    oldest first (the source sorts the frame by ascending date before
    use).  `df.tail(n)` is `tail n`, `df.iloc[-k]` is `iloc_neg df k`.
  * Data fetching (`get_daily_data`, the news API) is external to the
    scoring core; an already-fetched result is passed in as an
    `Option (List Bar)` / `Option (List NewsItem)` (`none` models a
    failed fetch, exactly the `None` the Python fetchers return).
  * Python `round(x, n)` (round half to even) is modelled by
    `round_to`; it is applied where the source applies it (display
    fields of the returned records).
-/
import Mathlib

/-- One daily bar of the time series.  Field names follow the DataFrame
columns the source assigns: `df.columns = ['Open','High','Low','Close','Volume']`. -/
structure Bar where
  Open : ℚ
  High : ℚ
  Low : ℚ
  Close : ℚ
  Volume : ℚ
deriving DecidableEq, Repr, Inhabited

/-- `df.tail(n)`: the last `n` rows (all rows if the frame is shorter). -/
def tail (n : ℕ) (df : List Bar) : List Bar := df.drop (df.length - n)

/-- `df.iloc[-k]` for `k ≥ 1`: the `k`-th row from the end (defaulting on
out-of-range access, which never happens on the guarded paths). -/
def iloc_neg (df : List Bar) (k : ℕ) : Bar := (df.drop (df.length - k)).headD default

/-- Mean of a list of rationals (`Series.mean()`); `0` on the empty list. -/
def meanQ (l : List ℚ) : ℚ := l.sum / l.length

/-- `Series.max()` over the `High` column (defaulting on the empty frame). -/
def maxHigh (df : List Bar) : ℚ := ((df.map Bar.High).max?).getD 0

/-- `Series.min()` over the `Low` column (defaulting on the empty frame). -/
def minLow (df : List Bar) : ℚ := ((df.map Bar.Low).min?).getD 0

/-- Round half to even to the nearest integer, the rounding Python's
`round` uses (the float's binary value is modelled exactly by `ℚ`). -/
def round_half_even (x : ℚ) : ℤ :=
  let f := ⌊x⌋
  let r := x - f
  if r < 1/2 then f
  else if 1/2 < r then f + 1
  else if f % 2 = 0 then f else f + 1

/-- Python `round(x, n)`. -/
def round_to (n : ℕ) (x : ℚ) : ℚ := (round_half_even (x * 10 ^ n) : ℚ) / 10 ^ n

/-- Percentage change as the specification words it in §4.2: all
percentages computed as `((new - old) / old) * 100`, using the most
recent value as `new`. -/
def spec_pct_change (new_ old : ℚ) : ℚ := ((new_ - old) / old) * 100

/-! ## Stable sorting

`smart_sector_breakout_scanner.py` ranks sectors with Python's
`sorted(sector_scores.items(), key=lambda x: x[1], reverse=True)`.
Python's `sorted` is documented stable, and `reverse=True` does not
reverse the order of tied elements; its semantics is the unique
permutation ordered by (key descending, original position ascending).
We realise it by insertion-sorting the position-decorated list under
that linear order and stripping the positions (`stable_sort_desc`).

`sector_rotation_scanner.py` ranks sectors with
`df.sort_values('Momentum_Score', ascending=False)` (default
`kind='quicksort'`).  pandas implements this via `nargsort`: for
`ascending=False` it reverses the column and the row indices, argsorts
the reversed column ascending, gathers, and reverses the resulting
indexer again.  numpy's `quicksort` runs a plain (stable) insertion
sort on arrays of at most 15 elements, and this scanner ranks the 13
configured sector ETFs, so the inner argsort is stable here; the whole
construction is modelled by `pandas_sort_values_desc`: reverse, stable
ascending sort, reverse. -/

section StableSort

variable {α : Type} {β : Type} [LinearOrder β]

/-- Order on position-decorated elements: key strictly descending,
ties broken by ascending original position. -/
def rDesc (key : α → β) (a b : ℕ × α) : Prop :=
  key b.2 < key a.2 ∨ (key a.2 = key b.2 ∧ a.1 ≤ b.1)

/-- Order on position-decorated elements: key strictly ascending,
ties broken by ascending original position. -/
def rAsc (key : α → β) (a b : ℕ × α) : Prop :=
  key a.2 < key b.2 ∨ (key a.2 = key b.2 ∧ a.1 ≤ b.1)

instance (key : α → β) : DecidableRel (rDesc key) := fun a b => by
  unfold rDesc; infer_instance

instance (key : α → β) : DecidableRel (rAsc key) := fun a b => by
  unfold rAsc; infer_instance

instance (key : α → β) : IsTotal (ℕ × α) (rDesc key) := ⟨fun a b => by
  unfold rDesc
  rcases lt_trichotomy (key a.2) (key b.2) with h | h | h
  · rcases Nat.le_total b.1 a.1 with hn | hn
    · exact Or.inr (Or.inl h)
    · exact Or.inr (Or.inl h)
  · rcases Nat.le_total a.1 b.1 with hn | hn
    · exact Or.inl (Or.inr ⟨h, hn⟩)
    · exact Or.inr (Or.inr ⟨h.symm, hn⟩)
  · exact Or.inl (Or.inl h)⟩

instance (key : α → β) : IsTotal (ℕ × α) (rAsc key) := ⟨fun a b => by
  unfold rAsc
  rcases lt_trichotomy (key a.2) (key b.2) with h | h | h
  · exact Or.inl (Or.inl h)
  · rcases Nat.le_total a.1 b.1 with hn | hn
    · exact Or.inl (Or.inr ⟨h, hn⟩)
    · exact Or.inr (Or.inr ⟨h.symm, hn⟩)
  · exact Or.inr (Or.inl h)⟩

instance (key : α → β) : IsTrans (ℕ × α) (rDesc key) := ⟨by
  intro a b c hab hbc
  unfold rDesc at *
  rcases hab with h1 | ⟨h1, h1n⟩ <;> rcases hbc with h2 | ⟨h2, h2n⟩
  · exact Or.inl (lt_trans h2 h1)
  · exact Or.inl (h2 ▸ h1)
  · exact Or.inl (h1 ▸ h2)
  · exact Or.inr ⟨h1.trans h2, le_trans h1n h2n⟩⟩

instance (key : α → β) : IsTrans (ℕ × α) (rAsc key) := ⟨by
  intro a b c hab hbc
  unfold rAsc at *
  rcases hab with h1 | ⟨h1, h1n⟩ <;> rcases hbc with h2 | ⟨h2, h2n⟩
  · exact Or.inl (lt_trans h1 h2)
  · exact Or.inl (h2 ▸ h1)
  · exact Or.inl (h1 ▸ h2)
  · exact Or.inr ⟨h1.trans h2, le_trans h1n h2n⟩⟩

/-- Model of Python's `sorted(l, key=key, reverse=True)`. -/
def stable_sort_desc (key : α → β) (l : List α) : List α :=
  ((l.enum).insertionSort (rDesc key)).map Prod.snd

/-- A stable ascending sort (numpy's argsort on at most 15 elements). -/
def stable_sort_asc (key : α → β) (l : List α) : List α :=
  ((l.enum).insertionSort (rAsc key)).map Prod.snd

/-- Model of pandas `DataFrame.sort_values(by, ascending=False)` on a
frame of at most 15 rows: `nargsort` reverses the column and the row
indices, argsorts ascending (stably, at this size), and reverses the
resulting indexer. -/
def pandas_sort_values_desc (key : α → β) (l : List α) : List α :=
  (stable_sort_asc key l.reverse).reverse

end StableSort

/-! ## `sector_rotation_scanner.py`

The functions below embed `analyze_sector_strength` (lines 112-167; the
heavily commented copy in `scripts/sector_rotation_scanner.py`, lines
256-418, is line-for-line the same computation) and the ranking step of
`scan_sector_rotation`.  The `get_daily_data(ticker)` fetch performed at
the top of `analyze_sector_strength` is external to the scoring core;
its result (`None` on failure) is passed in as `daily_df`. -/

/-- Trend labels assigned by `analyze_sector_strength`.  The source
tags them with emoji ("🚀 STRONG BUY", ...); only the label identity
matters. -/
inductive Trend where
  | STRONG_BUY
  | BUYING
  | STRONG_SELL
  | SELLING
  | NEUTRAL
deriving DecidableEq, Repr

/-- The `if/elif` classification chain of `analyze_sector_strength`
(both scanners state it identically):
`momentum_score > 1.5 and vol_trend > 0` → STRONG BUY, `elif
momentum_score > 0.5` → BUYING, `elif momentum_score < -1.5 and
vol_trend > 0` → STRONG SELL, `elif momentum_score < -0.5` → SELLING,
`else` NEUTRAL. -/
def trend_of (momentum_score vol_trend : ℚ) : Trend :=
  if momentum_score > 1.5 ∧ vol_trend > 0 then .STRONG_BUY
  else if momentum_score > 0.5 then .BUYING
  else if momentum_score < -1.5 ∧ vol_trend > 0 then .STRONG_SELL
  else if momentum_score < -0.5 then .SELLING
  else .NEUTRAL

namespace SectorRotationScanner

/-- `price_1d`: `((recent_20.iloc[-1]['Close'] - recent_20.iloc[-2]['Close']) / recent_20.iloc[-2]['Close']) * 100`. -/
def price_1d_of (df : List Bar) : ℚ :=
  ((iloc_neg (tail 20 df) 1).Close - (iloc_neg (tail 20 df) 2).Close) /
    (iloc_neg (tail 20 df) 2).Close * 100

/-- `price_5d`: `((recent_5.iloc[-1]['Close'] - recent_5.iloc[0]['Close']) / recent_5.iloc[0]['Close']) * 100`. -/
def price_5d_of (df : List Bar) : ℚ :=
  ((iloc_neg (tail 5 df) 1).Close - ((tail 5 df).headD default).Close) /
    ((tail 5 df).headD default).Close * 100

/-- `price_20d`: `((recent_20.iloc[-1]['Close'] - recent_20.iloc[0]['Close']) / recent_20.iloc[0]['Close']) * 100`. -/
def price_20d_of (df : List Bar) : ℚ :=
  ((iloc_neg (tail 20 df) 1).Close - ((tail 20 df).headD default).Close) /
    ((tail 20 df).headD default).Close * 100

/-- `vol_trend`: `((recent_vol - avg_vol_20d) / avg_vol_20d) * 100` with
`avg_vol_20d = recent_20['Volume'].mean()` and `recent_vol = recent_5['Volume'].mean()`. -/
def vol_trend_of (df : List Bar) : ℚ :=
  (meanQ ((tail 5 df).map Bar.Volume) - meanQ ((tail 20 df).map Bar.Volume)) /
    meanQ ((tail 20 df).map Bar.Volume) * 100

/-- `rs_vs_sma`: `((current_price - sma_20) / sma_20) * 100` with
`sma_20 = recent_20['Close'].mean()`. -/
def rs_vs_sma_of (df : List Bar) : ℚ :=
  ((iloc_neg (tail 20 df) 1).Close - meanQ ((tail 20 df).map Bar.Close)) /
    meanQ ((tail 20 df).map Bar.Close) * 100

/-- `momentum_score = (price_1d * 0.5) + (price_5d * 0.3) + (price_20d * 0.2)`. -/
def momentum_score_of (df : List Bar) : ℚ :=
  price_1d_of df * 0.5 + price_5d_of df * 0.3 + price_20d_of df * 0.2

/-- The record `analyze_sector_strength` returns.  Field names follow
the dictionary keys of the source (`'1D_Change_%'` → `price_1d`, etc.,
using the local-variable names where the key is not an identifier). -/
structure SectorMetrics where
  Sector : String
  Ticker : String
  price_1d : ℚ
  price_5d : ℚ
  price_20d : ℚ
  vol_trend : ℚ
  rs_vs_sma : ℚ
  Momentum_Score : ℚ
  Trend_label : Trend
  Current_Price : ℚ
deriving DecidableEq, Repr

/-- `analyze_sector_strength(ticker, sector_name)` with the fetched
daily frame passed in.  Returns `None` when the fetch failed or fewer
than 20 bars are available; otherwise the metrics record, whose display
fields are rounded to 2 decimal places exactly as in the source. -/
def analyze_sector_strength (daily_df : Option (List Bar))
    (ticker sector_name : String) : Option SectorMetrics :=
  match daily_df with
  | none => none
  | some df =>
    if df.length < 20 then none
    else
      some {
        Sector := sector_name
        Ticker := ticker
        price_1d := round_to 2 (price_1d_of df)
        price_5d := round_to 2 (price_5d_of df)
        price_20d := round_to 2 (price_20d_of df)
        vol_trend := round_to 2 (vol_trend_of df)
        rs_vs_sma := round_to 2 (rs_vs_sma_of df)
        Momentum_Score := round_to 2 (momentum_score_of df)
        Trend_label := trend_of (momentum_score_of df) (vol_trend_of df)
        Current_Price := round_to 2 ((iloc_neg (tail 20 df) 1).Close) }

/-- `df = df.sort_values('Momentum_Score', ascending=False)` in
`scan_sector_rotation` (13-row frame, see `pandas_sort_values_desc`). -/
def rank_sectors (results : List SectorMetrics) : List SectorMetrics :=
  pandas_sort_values_desc (fun m => m.Momentum_Score) results

/-- `scan_sector_rotation()`: analyze every configured sector,
collecting the successful analyses in configuration order, return
`None` if none succeeded and otherwise the frame ranked by momentum.
`data` stands for the external `get_daily_data` fetches. -/
def scan_sector_rotation (data : String → Option (List Bar))
    (sector_etfs : List (String × String)) : Option (List SectorMetrics) :=
  let results := sector_etfs.filterMap
    (fun p => analyze_sector_strength (data p.1) p.1 p.2)
  if results.isEmpty then none else some (rank_sectors results)

end SectorRotationScanner

/-! ## `smart_sector_breakout_scanner.py`

Embeds `analyze_sector_strength` (lines 142-157), `get_news_sentiment`
(89-139), `check_breakout_quality` (160-252) and the two-stage pipeline
of `main` (255-385).  The API fetches are passed in as `Option` values;
the configured dictionaries (`SECTOR_ETFS`, `SECTOR_STOCKS`) are passed
in as explicit data. -/

namespace SmartSectorBreakoutScanner

/-- `analyze_sector_strength(ticker)` of the breakout scanner: "Quick
sector strength analysis".  `price_1d` and `price_5d` (lines 152-153)
are the same expressions as in `sector_rotation_scanner.py`, so the
shared embeddings are reused; the momentum combination differs:
`momentum_score = (price_1d * 0.5) + (price_5d * 0.5)` (line 155). -/
def analyze_sector_strength (df : Option (List Bar)) : Option ℚ :=
  match df with
  | none => none
  | some df =>
    if df.length < 20 then none
    else some (SectorRotationScanner.price_1d_of df * 0.5 +
      SectorRotationScanner.price_5d_of df * 0.5)

/-- One entry of a news item's `ticker_sentiment` list. -/
structure TickerSentiment where
  ticker : String
  ticker_sentiment_score : ℚ
deriving DecidableEq, Repr

/-- One item of the news feed.  (`title` and `time_published` are carried
into the `recent_news` display list only, which no claim concerns; the
list is not modelled.) -/
structure NewsItem where
  title : String
  ticker_sentiment : List TickerSentiment
  time_published : String
deriving DecidableEq, Repr

/-- The summary `get_news_sentiment` returns (without the `recent_news`
display list). -/
structure NewsSummary where
  avg_sentiment : ℚ
  news_count : ℕ
deriving DecidableEq, Repr

/-- `get_news_sentiment(ticker)` with the fetched feed passed in.  For
each of the first 5 items, the first `ticker_sentiment` entry matching
the ticker is looked up (`break` after the first match); the Python
truthiness test `if ticker_sentiment:` then keeps the score only when
an entry matched AND its score is not `0.0`. -/
def get_news_sentiment (feed : Option (List NewsItem)) (ticker : String) :
    Option NewsSummary :=
  match feed with
  | none => none
  | some news_items =>
    if news_items.isEmpty then none
    else
      let sentiments := (news_items.take 5).filterMap (fun item =>
        match item.ticker_sentiment.find? (fun td => td.ticker == ticker) with
        | some td =>
          if td.ticker_sentiment_score ≠ 0 then some td.ticker_sentiment_score
          else none
        | none => none)
      if sentiments.isEmpty then none
      else some {
        avg_sentiment := sentiments.sum / sentiments.length
        news_count := sentiments.length }

/-- The record `check_breakout_quality` returns, with the news fields
`main` later attaches (initialised to the no-news defaults; `date` is a
display-only timestamp and is not modelled).  `volume`/`avg_volume` are
truncated to integers by `int(...)` in the source (volumes are
non-negative, so `Int.floor` is that truncation). -/
structure BreakoutCandidate where
  ticker : String
  close : ℚ
  prev_high : ℚ
  breakout_pct : ℚ
  volume : ℤ
  avg_volume : ℤ
  volume_ratio : ℚ
  quality_score : ℤ
  sma_10 : ℚ
  sma_20 : ℚ
  news_sentiment : ℚ
  news_count : ℕ
  has_news : Bool
deriving DecidableEq, Repr

/-- `recent = df.tail(50)`. -/
def recent_of (df : List Bar) : List Bar := tail 50 df

/-- `today = recent.iloc[-1]`. -/
def today_of (df : List Bar) : Bar := iloc_neg (recent_of df) 1

/-- `lookback_data = recent.iloc[-21:-1]`: the 20 bars immediately
preceding the most recent bar. -/
def lookback_of (df : List Bar) : List Bar := tail 20 ((recent_of df).dropLast)

/-- `prev_high = lookback_data['High'].max()`. -/
def prev_high_of (df : List Bar) : ℚ := maxHigh (lookback_of df)

/-- `avg_volume = lookback_data['Volume'].mean()`. -/
def avg_volume_of (df : List Bar) : ℚ := meanQ ((lookback_of df).map Bar.Volume)

/-- `recent['Close'].rolling(window=n).mean()` evaluated at the last
row: defined only when at least `n` rows exist (`NaN` → `none`). -/
def sma_last (n : ℕ) (l : List Bar) : Option ℚ :=
  if l.length < n then none else some (meanQ ((tail n l).map Bar.Close))

/-- `breakout_pct = ((today['Close'] - prev_high) / prev_high) * 100`. -/
def breakout_pct_of (df : List Bar) : ℚ :=
  ((today_of df).Close - prev_high_of df) / prev_high_of df * 100

/-- `volume_ratio = today['Volume'] / avg_volume`. -/
def volume_ratio_of (df : List Bar) : ℚ := (today_of df).Volume / avg_volume_of df

/-- `consolidation_period = lookback_data.iloc[-10:]`. -/
def consolidation_of (df : List Bar) : List Bar := tail 10 (lookback_of df)

/-- `price_range = (max High - min Low) / mean Close` over the
consolidation period. -/
def price_range_of (df : List Bar) : ℚ :=
  (maxHigh (consolidation_of df) - minLow (consolidation_of df)) /
    meanQ ((consolidation_of df).map Bar.Close)

/-- `above_sma10 = today['Close'] > today['SMA_10']` (False on NaN). -/
def above_sma10_of (df : List Bar) : Bool :=
  match sma_last 10 (recent_of df) with
  | some s => decide (s < (today_of df).Close)
  | none => false

/-- `above_sma20 = today['Close'] > today['SMA_20']` (False on NaN). -/
def above_sma20_of (df : List Bar) : Bool :=
  match sma_last 20 (recent_of df) with
  | some s => decide (s < (today_of df).Close)
  | none => false

/-- `uptrend = today['SMA_10'] > today['SMA_20']` (False on NaN). -/
def uptrend_of (df : List Bar) : Bool :=
  match sma_last 10 (recent_of df), sma_last 20 (recent_of df) with
  | some a, some b => decide (b < a)
  | _, _ => false

/-- Breakout strength tier (0-25 points), lines 197-205. -/
def breakout_points (breakout_pct : ℚ) : ℤ :=
  if breakout_pct > 5 then 25
  else if breakout_pct > 3 then 20
  else if breakout_pct > 1 then 15
  else 10

/-- Volume confirmation tier (0-25 points), lines 208-216. -/
def volume_points (volume_ratio : ℚ) : ℤ :=
  if volume_ratio > 3 then 25
  else if volume_ratio > 2 then 20
  else if volume_ratio > 1.5 then 15
  else 5

/-- Trend alignment tier (0-25 points), lines 219-224. -/
def trend_points (above_sma10 above_sma20 uptrend : Bool) : ℤ :=
  if above_sma10 && above_sma20 && uptrend then 25
  else if above_sma10 && above_sma20 then 20
  else if above_sma10 || above_sma20 then 10
  else 0

/-- Consolidation quality tier (0-25 points), lines 228-238. -/
def consolidation_points (price_range : ℚ) : ℤ :=
  if price_range < 0.10 then 25
  else if price_range < 0.15 then 20
  else if price_range < 0.20 then 15
  else 5

/-- `check_breakout_quality(df, ticker)`: `None` when the fetch failed,
fewer than 30 bars are available, or today's close does not exceed the
prior 20-bar high; otherwise the fully scored candidate.  (The unused
local `volume_spike` of line 185 is not modelled.) -/
def check_breakout_quality (df : Option (List Bar)) (ticker : String) :
    Option BreakoutCandidate :=
  match df with
  | none => none
  | some df =>
    if df.length < 30 then none
    else if (today_of df).Close > prev_high_of df then
      some {
        ticker := ticker
        close := round_to 2 (today_of df).Close
        prev_high := round_to 2 (prev_high_of df)
        breakout_pct := round_to 2 (breakout_pct_of df)
        volume := ⌊(today_of df).Volume⌋
        avg_volume := ⌊avg_volume_of df⌋
        volume_ratio := round_to 2 (volume_ratio_of df)
        quality_score := breakout_points (breakout_pct_of df) +
          volume_points (volume_ratio_of df) +
          trend_points (above_sma10_of df) (above_sma20_of df) (uptrend_of df) +
          consolidation_points (price_range_of df)
        sma_10 := match sma_last 10 (recent_of df) with
          | some s => round_to 2 s
          | none => 0
        sma_20 := match sma_last 20 (recent_of df) with
          | some s => round_to 2 s
          | none => 0
        news_sentiment := 0
        news_count := 0
        has_news := false }
    else none

/-- The sentiment-adjustment block of `main` (lines 317-333): on news,
record the rounded sentiment and count and add 10 / subtract 10 for
average sentiment above 0.2 / below -0.2; without news leave the score
untouched with `news_count = 0`. -/
def apply_news (breakout : BreakoutCandidate) (news : Option NewsSummary) :
    BreakoutCandidate :=
  match news with
  | some n =>
    let b := { breakout with
      news_sentiment := round_to 3 n.avg_sentiment
      news_count := n.news_count
      has_news := true }
    if n.avg_sentiment > 0.2 then { b with quality_score := b.quality_score + 10 }
    else if n.avg_sentiment < -0.2 then { b with quality_score := b.quality_score - 10 }
    else b
  | none => { breakout with news_sentiment := 0, news_count := 0, has_news := false }

/-- STEP 1 of `main` (lines 266-275): `sector_scores` keeps, in
configuration order, each sector whose quick analysis succeeded AND
returned a truthy (non-zero) momentum — `if momentum:` drops both
`None` and `0.0`. -/
def build_sector_scores (data : String → Option (List Bar))
    (sector_etfs : List (String × String)) : List (String × ℚ) :=
  sector_etfs.filterMap (fun p =>
    match analyze_sector_strength (data p.1) with
    | some momentum => if momentum ≠ 0 then some (p.2, momentum) else none
    | none => none)

/-- `sorted_sectors = sorted(sector_scores.items(), key=lambda x: x[1], reverse=True)` (line 282). -/
def sorted_sectors (sector_scores : List (String × ℚ)) : List (String × ℚ) :=
  stable_sort_desc (fun p => p.2) sector_scores

/-- The selection loop of lines 287-292: walk the ranked sectors and
take the first one whose configured stock list is non-empty
(`SECTOR_STOCKS.get(sector_name, [])` is passed in as `sector_stocks`). -/
def select_strongest (sector_scores : List (String × ℚ))
    (sector_stocks : String → List String) : Option (String × ℚ) :=
  (sorted_sectors sector_scores).find? (fun p => !(sector_stocks p.1).isEmpty)

/-- Terminal outcomes of `main`: no sector analysed, no analysed sector
with a stock universe, no breakout in the chosen sector, or the ranked
candidate list. -/
inductive ScanOutcome where
  | no_sectors
  | no_eligible_sector
  | no_breakouts (sector : String) (momentum : ℚ)
  | scanned (sector : String) (momentum : ℚ) (candidates : List BreakoutCandidate)
deriving DecidableEq, Repr

/-- The two-stage pipeline of `main`: build sector scores, select the
strongest eligible sector, scan its stocks and rank the candidates by
quality score.  (The final `sort_values('quality_score', ascending=False)`
uses the same pandas model; the universes here have at most 20 stocks,
of which typically few break out.) -/
def main_pipeline (data : String → Option (List Bar))
    (news : String → Option (List NewsItem))
    (sector_etfs : List (String × String))
    (sector_stocks : String → List String) : ScanOutcome :=
  let sector_scores := build_sector_scores data sector_etfs
  if sector_scores.isEmpty then .no_sectors
  else
    match select_strongest sector_scores sector_stocks with
    | none => .no_eligible_sector
    | some (sector_name, momentum) =>
      let breakout_candidates := (sector_stocks sector_name).filterMap (fun t =>
        match check_breakout_quality (data t) t with
        | some b => some (apply_news b (get_news_sentiment (news t) t))
        | none => none)
      if breakout_candidates.isEmpty then .no_breakouts sector_name momentum
      else .scanned sector_name momentum
        (pandas_sort_values_desc (fun b => b.quality_score) breakout_candidates)

end SmartSectorBreakoutScanner

/-! ## Concrete data used in witnesses and counterexamples -/

/-- A flat bar: all prices `c`, volume 1. -/
def mkBar (c : ℚ) : Bar := ⟨c, c, c, c, 1⟩

/-- A quiet 50-dollar bar with 1M volume. -/
def bar50 : Bar := ⟨50, 50, 50, 50, 1000000⟩

/-- A breakout bar: close 53 on 3.2M volume. -/
def barBreak : Bar := ⟨53, 53, 50, 53, 3200000⟩

/-- 30-bar window: 29 quiet bars then a textbook breakout (the §8
end-to-end example of the specification: +6% breakout, 3.2x volume,
above both SMAs in an uptrend, 0% consolidation range). -/
def w100 : List Bar := List.replicate 29 bar50 ++ [barBreak]

/-- The candidate `check_breakout_quality` produces on `w100`. -/
def cand100 : SmartSectorBreakoutScanner.BreakoutCandidate :=
  { ticker := "X", close := 53, prev_high := 50, breakout_pct := 6, volume := 3200000,
    avg_volume := 1000000, volume_ratio := 16/5, quality_score := 100,
    sma_10 := 503/10, sma_20 := 1003/20, news_sentiment := 0, news_count := 0,
    has_news := false }

/-- 20-bar window: close 50, then eighteen 100s, then 102.  Its 1-day
and 5-day changes are +2% each, its 20-day change +104%. -/
def w_c1 : List Bar := mkBar 50 :: (List.replicate 18 (mkBar 100) ++ [mkBar 102])

/-- 20 flat bars: momentum exactly 0. -/
def w_zero : List Bar := List.replicate 20 (mkBar 100)

/-- 19 flat bars then a 1% drop: quick momentum exactly -1. -/
def w_neg : List Bar := List.replicate 19 (mkBar 100) ++ [mkBar 99]

/-- Data source for the zero-momentum scenario: Technology's ETF comes
back perfectly flat, Financials' ETF slightly down. -/
def dataC9 (s : String) : Option (List Bar) :=
  if s = "XLK" then some w_zero else if s = "XLF" then some w_neg else none

/-- Two tracked sectors for the zero-momentum scenario. -/
def etfsC9 : List (String × String) := [("XLK", "Technology"), ("XLF", "Financials")]

/-- Every sector has one configured stock. -/
def stocksC9 (_ : String) : List String := ["S"]

/-- Data source whose "XLF" series is 3 bars long (insufficient); all
other tickers come back with a full flat window. -/
def dataC8 (s : String) : Option (List Bar) :=
  if s = "XLF" then some (List.replicate 3 (mkBar 100)) else some w_zero

/-- Two sector-metrics records with equal momentum score. -/
def metricsA : SectorRotationScanner.SectorMetrics :=
  { Sector := "Technology", Ticker := "XLK", price_1d := 1, price_5d := 1, price_20d := 1,
    vol_trend := 0, rs_vs_sma := 0, Momentum_Score := 1, Trend_label := .BUYING,
    Current_Price := 100 }

/-- Same momentum score as `metricsA`, different sector. -/
def metricsB : SectorRotationScanner.SectorMetrics :=
  { Sector := "Financials", Ticker := "XLF", price_1d := 1, price_5d := 1, price_20d := 1,
    vol_trend := 0, rs_vs_sma := 0, Momentum_Score := 1, Trend_label := .BUYING,
    Current_Price := 100 }

/-- A one-item news feed whose only matching ticker-sentiment entry
carries score exactly 0.0. -/
def feedZ : List SmartSectorBreakoutScanner.NewsItem :=
  [{ title := "headline", ticker_sentiment := [{ ticker := "AAPL", ticker_sentiment_score := 0 }],
     time_published := "20240101T000000" }]

/-! ## Shared lemmas -/

theorem tail_length {n : ℕ} {df : List Bar} (h : n ≤ df.length) :
    (tail n df).length = n := by
  simp [tail]
  omega

theorem iloc_neg_tail {k n : ℕ} {df : List Bar} (hk : k ≤ n) :
    iloc_neg (tail n df) k = iloc_neg df k := by
  unfold iloc_neg tail
  rw [List.drop_drop, List.length_drop]
  congr 2
  omega

theorem headD_tail {n : ℕ} {df : List Bar} :
    (tail n df).headD default = iloc_neg df n := rfl

section StableSortLemmas

variable {α : Type} {β : Type} [LinearOrder β]

theorem enumFrom_map_snd (l : List α) : ∀ n : ℕ, (l.enumFrom n).map Prod.snd = l := by
  induction l with
  | nil => intro n; rfl
  | cons h t ih => intro n; simp [List.enumFrom, ih]

theorem enum_map_snd (l : List α) : l.enum.map Prod.snd = l :=
  enumFrom_map_snd l 0

theorem stable_sort_desc_perm (key : α → β) (l : List α) :
    List.Perm (stable_sort_desc key l) l := by
  have h := (List.perm_insertionSort (rDesc key) l.enum).map Prod.snd
  rwa [enum_map_snd] at h

theorem stable_sort_desc_pairwise (key : α → β) (l : List α) :
    (stable_sort_desc key l).Pairwise (fun a b => key b ≤ key a) := by
  have h := List.sorted_insertionSort (rDesc key) l.enum
  refine List.Pairwise.map Prod.snd ?_ h
  intro a b hab
  rcases hab with h1 | ⟨h1, _⟩
  · exact le_of_lt h1
  · exact le_of_eq h1.symm

theorem pairwise_pair_sublist {γ : Type} {r : γ → γ → Prop} :
    ∀ {l : List γ} {a b : γ}, l.Pairwise r → a ∈ l → b ∈ l → a ≠ b → ¬ r b a →
      List.Sublist [a, b] l := by
  intro l
  induction l with
  | nil => intro a b _ ha _ _ _; cases ha
  | cons h t ih =>
    intro a b hp ha hb hne hnr
    rcases List.mem_cons.mp ha with rfl | hat
    · rcases List.mem_cons.mp hb with rfl | hbt
      · exact absurd rfl hne
      · exact List.Sublist.cons₂ _ (List.singleton_sublist.mpr hbt)
    · rcases List.mem_cons.mp hb with rfl | hbt
      · exact absurd ((List.pairwise_cons.mp hp).1 a hat) hnr
      · exact List.Sublist.cons _ (ih (List.pairwise_cons.mp hp).2 hat hbt hne hnr)

theorem mem_enum_get {l : List α} {i : ℕ} (h : i < l.length) :
    (i, l.get ⟨i, h⟩) ∈ l.enum := by
  rw [List.mk_mem_enum_iff_getElem?]
  simp [List.getElem?_eq_getElem h]

theorem stable_sort_desc_stable (key : α → β) (l : List α) {i j : ℕ}
    (hi : i < l.length) (hj : j < l.length) (hij : i < j)
    (hkey : key (l.get ⟨i, hi⟩) = key (l.get ⟨j, hj⟩)) :
    List.Sublist [l.get ⟨i, hi⟩, l.get ⟨j, hj⟩] (stable_sort_desc key l) := by
  have hmem_a := mem_enum_get hi
  have hmem_b := mem_enum_get hj
  have hne : ((i, l.get ⟨i, hi⟩) : ℕ × α) ≠ (j, l.get ⟨j, hj⟩) := by
    intro hEq
    have : i = j := congrArg Prod.fst hEq
    omega
  have hnr : ¬ rDesc key (j, l.get ⟨j, hj⟩) (i, l.get ⟨i, hi⟩) := by
    unfold rDesc
    rintro (hlt | ⟨_, hle⟩)
    · rw [hkey] at hlt; exact lt_irrefl _ hlt
    · omega
  have hpair : List.Sublist [((i, l.get ⟨i, hi⟩) : ℕ × α), (j, l.get ⟨j, hj⟩)]
      ((l.enum).insertionSort (rDesc key)) :=
    pairwise_pair_sublist (List.sorted_insertionSort (rDesc key) l.enum)
      ((List.mem_insertionSort _).mpr hmem_a)
      ((List.mem_insertionSort _).mpr hmem_b) hne hnr
  have := hpair.map Prod.snd
  simpa [stable_sort_desc] using this

theorem stable_sort_asc_stable (key : α → β) (l : List α) {i j : ℕ}
    (hi : i < l.length) (hj : j < l.length) (hij : i < j)
    (hkey : key (l.get ⟨i, hi⟩) = key (l.get ⟨j, hj⟩)) :
    List.Sublist [l.get ⟨i, hi⟩, l.get ⟨j, hj⟩] (stable_sort_asc key l) := by
  have hmem_a := mem_enum_get hi
  have hmem_b := mem_enum_get hj
  have hne : ((i, l.get ⟨i, hi⟩) : ℕ × α) ≠ (j, l.get ⟨j, hj⟩) := by
    intro hEq
    have : i = j := congrArg Prod.fst hEq
    omega
  have hnr : ¬ rAsc key (j, l.get ⟨j, hj⟩) (i, l.get ⟨i, hi⟩) := by
    unfold rAsc
    rintro (hlt | ⟨_, hle⟩)
    · rw [hkey] at hlt; exact lt_irrefl _ hlt
    · omega
  have hpair : List.Sublist [((i, l.get ⟨i, hi⟩) : ℕ × α), (j, l.get ⟨j, hj⟩)]
      ((l.enum).insertionSort (rAsc key)) :=
    pairwise_pair_sublist (List.sorted_insertionSort (rAsc key) l.enum)
      ((List.mem_insertionSort _).mpr hmem_a)
      ((List.mem_insertionSort _).mpr hmem_b) hne hnr
  have := hpair.map Prod.snd
  simpa [stable_sort_asc] using this

theorem pandas_sort_values_desc_stable (key : α → β) (l : List α) {i j : ℕ}
    (hi : i < l.length) (hj : j < l.length) (hij : i < j)
    (hkey : key (l.get ⟨i, hi⟩) = key (l.get ⟨j, hj⟩)) :
    List.Sublist [l.get ⟨i, hi⟩, l.get ⟨j, hj⟩] (pandas_sort_values_desc key l) := by
  have hi' : l.length - 1 - j < l.reverse.length := by
    rw [List.length_reverse]; omega
  have hj' : l.length - 1 - i < l.reverse.length := by
    rw [List.length_reverse]; omega
  have hij' : l.length - 1 - j < l.length - 1 - i := by omega
  have hgb : l.reverse.get ⟨l.length - 1 - j, hi'⟩ = l.get ⟨j, hj⟩ :=
    List.get_reverse l j hi' hj
  have hga : l.reverse.get ⟨l.length - 1 - i, hj'⟩ = l.get ⟨i, hi⟩ :=
    List.get_reverse l i hj' hi
  have hkey' : key (l.reverse.get ⟨l.length - 1 - j, hi'⟩) =
      key (l.reverse.get ⟨l.length - 1 - i, hj'⟩) := by
    rw [hgb, hga, hkey]
  have hsub := stable_sort_asc_stable key l.reverse hi' hj' hij' hkey'
  rw [hgb, hga] at hsub
  have := hsub.reverse
  simpa [pandas_sort_values_desc] using this

end StableSortLemmas

theorem dropLast_drop_comm (m : ℕ) (l : List Bar) :
    (l.drop m).dropLast = l.dropLast.drop m := by
  rw [List.dropLast_eq_take, List.dropLast_eq_take, List.drop_take]
  congr 1
  simp
  omega

theorem tail_drop {k m : ℕ} {l : List Bar} (h : k + m ≤ l.length) :
    tail k (l.drop m) = tail k l := by
  unfold tail
  rw [List.length_drop, List.drop_drop]
  congr 1
  omega

theorem lookback_eq {df : List Bar} (h : 30 ≤ df.length) :
    SmartSectorBreakoutScanner.lookback_of df = tail 20 df.dropLast := by
  unfold SmartSectorBreakoutScanner.lookback_of SmartSectorBreakoutScanner.recent_of
  rw [show tail 50 df = df.drop (df.length - 50) from rfl, dropLast_drop_comm]
  exact tail_drop (by rw [List.length_dropLast]; omega)

/-! ## Evaluation lemmas for the concrete data -/

set_option maxRecDepth 8000

theorem w100_len : w100.length = 30 := by with_unfolding_all decide

theorem w100_today : SmartSectorBreakoutScanner.today_of w100 = barBreak := by
  with_unfolding_all rfl

theorem w100_ph : SmartSectorBreakoutScanner.prev_high_of w100 = 50 := by
  with_unfolding_all decide

theorem w100_av : SmartSectorBreakoutScanner.avg_volume_of w100 = 1000000 := by
  simp [SmartSectorBreakoutScanner.avg_volume_of, SmartSectorBreakoutScanner.lookback_of,
    SmartSectorBreakoutScanner.recent_of, meanQ, tail, w100, List.replicate, bar50, barBreak]
  norm_num

theorem w100_sma10 :
    SmartSectorBreakoutScanner.sma_last 10 (SmartSectorBreakoutScanner.recent_of w100) =
      some (503/10) := by
  with_unfolding_all decide

theorem w100_sma20 :
    SmartSectorBreakoutScanner.sma_last 20 (SmartSectorBreakoutScanner.recent_of w100) =
      some (1003/20) := by
  with_unfolding_all decide

theorem w100_pr : SmartSectorBreakoutScanner.price_range_of w100 = 0 := by
  with_unfolding_all decide

theorem w100_bp : SmartSectorBreakoutScanner.breakout_pct_of w100 = 6 := by
  with_unfolding_all decide

theorem w100_vr : SmartSectorBreakoutScanner.volume_ratio_of w100 = 16/5 := by
  with_unfolding_all decide

theorem w100_a10 : SmartSectorBreakoutScanner.above_sma10_of w100 = true := by
  with_unfolding_all decide

theorem w100_a20 : SmartSectorBreakoutScanner.above_sma20_of w100 = true := by
  with_unfolding_all decide

theorem w100_up : SmartSectorBreakoutScanner.uptrend_of w100 = true := by
  with_unfolding_all decide

theorem w100_check :
    SmartSectorBreakoutScanner.check_breakout_quality (some w100) "X" = some cand100 := by
  rw [SmartSectorBreakoutScanner.check_breakout_quality, cand100]
  simp only [w100_len, w100_today, w100_ph, w100_av, w100_sma10, w100_sma20, w100_pr,
    w100_bp, w100_vr, w100_a10, w100_a20, w100_up,
    SmartSectorBreakoutScanner.breakout_points, SmartSectorBreakoutScanner.volume_points,
    SmartSectorBreakoutScanner.trend_points, SmartSectorBreakoutScanner.consolidation_points,
    barBreak]
  norm_num [round_to, round_half_even]

theorem w_zero_analyze :
    SmartSectorBreakoutScanner.analyze_sector_strength (some w_zero) = some 0 := by
  with_unfolding_all decide

theorem w_neg_analyze :
    SmartSectorBreakoutScanner.analyze_sector_strength (some w_neg) = some (-1) := by
  with_unfolding_all decide

theorem dataC9_XLK : dataC9 "XLK" = some w_zero := by simp [dataC9]

theorem dataC9_XLF : dataC9 "XLF" = some w_neg := by simp [dataC9]

theorem buildC9 :
    SmartSectorBreakoutScanner.build_sector_scores dataC9 etfsC9 = [("Financials", -1)] := by
  simp only [SmartSectorBreakoutScanner.build_sector_scores, etfsC9,
    List.filterMap_cons, List.filterMap_nil, dataC9_XLK, dataC9_XLF,
    w_zero_analyze, w_neg_analyze]
  norm_num

theorem selectC9 :
    SmartSectorBreakoutScanner.select_strongest
      (SmartSectorBreakoutScanner.build_sector_scores dataC9 etfsC9) stocksC9 =
      some ("Financials", -1) := by
  rw [buildC9]
  with_unfolding_all decide

theorem find_max_of_pairwise {γ : Type} {key : γ → ℚ} {p : γ → Bool} :
    ∀ {l : List γ}, l.Pairwise (fun a b => key b ≤ key a) → ∀ {f : γ}, l.find? p = some f →
      ∀ x ∈ l, p x = true → key x ≤ key f := by
  intro l
  induction l with
  | nil => intro _ f hf; simp at hf
  | cons h t ih =>
    intro hp f hf x hx hpx
    by_cases hph : p h = true
    · rw [List.find?_cons_of_pos _ hph] at hf
      injection hf with hf
      subst hf
      rcases List.mem_cons.mp hx with rfl | hxt
      · exact le_refl _
      · exact (List.pairwise_cons.mp hp).1 x hxt
    · rw [List.find?_cons_of_neg _ (by simpa using hph)] at hf
      rcases List.mem_cons.mp hx with rfl | hxt
      · exact absurd hpx hph
      · exact ih (List.pairwise_cons.mp hp).2 hf x hxt hpx

theorem sorted_sectors_perm (scores : List (String × ℚ)) :
    List.Perm (SmartSectorBreakoutScanner.sorted_sectors scores) scores :=
  stable_sort_desc_perm _ _

theorem select_strongest_none_iff (scores : List (String × ℚ))
    (stocks : String → List String) :
    SmartSectorBreakoutScanner.select_strongest scores stocks = none ↔
      ∀ p ∈ scores, stocks p.1 = [] := by
  unfold SmartSectorBreakoutScanner.select_strongest
  rw [List.find?_eq_none]
  constructor
  · intro h p hp
    have := h p ((sorted_sectors_perm scores).mem_iff.mpr hp)
    simpa using this
  · intro h p hp
    have := h p ((sorted_sectors_perm scores).mem_iff.mp hp)
    simp [this]

theorem select_strongest_some {scores : List (String × ℚ)}
    {stocks : String → List String} {s : String} {m : ℚ}
    (h : SmartSectorBreakoutScanner.select_strongest scores stocks = some (s, m)) :
    (s, m) ∈ scores ∧ stocks s ≠ [] ∧ ∀ q ∈ scores, stocks q.1 ≠ [] → q.2 ≤ m := by
  unfold SmartSectorBreakoutScanner.select_strongest at h
  refine ⟨?_, ?_, ?_⟩
  · exact (sorted_sectors_perm scores).mem_iff.mp (List.mem_of_find?_eq_some h)
  · have := List.find?_some h
    simpa using this
  · intro q hq hq'
    have hsorted := stable_sort_desc_pairwise (fun p : String × ℚ => p.2) scores
    have hqmem := (sorted_sectors_perm scores).mem_iff.mpr hq
    have := find_max_of_pairwise hsorted h q hqmem (by simpa using hq')
    simpa using this

/-! ## Claim theorems -/

/-- C1 counterexample: the claim says EVERY sector-strength analysis in
the program weights the 1/5/20-day changes 0.5/0.3/0.2, but the quick
analysis in `smart_sector_breakout_scanner.py` computes
`0.5·1d + 0.5·5d` with no 20-day term: on the 20-bar window `w_c1`
(1d = +2%, 5d = +2%, 20d = +104%) it returns 2, while the claimed
weighted sum is 22.4. -/
theorem momentum_weights_cex :
    20 ≤ w_c1.length ∧
    SmartSectorBreakoutScanner.analyze_sector_strength (some w_c1) = some 2 ∧
    0.5 * spec_pct_change (iloc_neg w_c1 1).Close (iloc_neg w_c1 2).Close +
      0.3 * spec_pct_change (iloc_neg w_c1 1).Close (iloc_neg w_c1 5).Close +
      0.2 * spec_pct_change (iloc_neg w_c1 1).Close (iloc_neg w_c1 20).Close = 112/5 ∧
    (2 : ℚ) ≠ 112/5 := by
  refine ⟨by decide, by with_unfolding_all decide, by with_unfolding_all decide, by norm_num⟩

/-- C1 (amended): on every window of at least 20 daily bars, the two
sector-rotation scanners compute
`momentum_score = 0.5·pct_1d + 0.3·pct_5d + 0.2·pct_20d`, each
percentage being `((new - old) / old) * 100` with the most recent close
as `new`; the breakout scanner's quick sector-strength analysis instead
computes `0.5·pct_1d + 0.5·pct_5d`, with no 20-day term. -/
theorem momentum_weights_amended (df : List Bar) (h : 20 ≤ df.length) :
    SectorRotationScanner.momentum_score_of df =
      0.5 * spec_pct_change (iloc_neg df 1).Close (iloc_neg df 2).Close +
      0.3 * spec_pct_change (iloc_neg df 1).Close (iloc_neg df 5).Close +
      0.2 * spec_pct_change (iloc_neg df 1).Close (iloc_neg df 20).Close ∧
    SmartSectorBreakoutScanner.analyze_sector_strength (some df) =
      some (0.5 * spec_pct_change (iloc_neg df 1).Close (iloc_neg df 2).Close +
        0.5 * spec_pct_change (iloc_neg df 1).Close (iloc_neg df 5).Close) := by
  have h1 : iloc_neg (tail 20 df) 1 = iloc_neg df 1 := iloc_neg_tail (by omega)
  have h2 : iloc_neg (tail 20 df) 2 = iloc_neg df 2 := iloc_neg_tail (by omega)
  have h5 : iloc_neg (tail 5 df) 1 = iloc_neg df 1 := iloc_neg_tail (by omega)
  have h5h : (tail 5 df).headD default = iloc_neg df 5 := headD_tail
  have h20h : (tail 20 df).headD default = iloc_neg df 20 := headD_tail
  constructor
  · unfold SectorRotationScanner.momentum_score_of SectorRotationScanner.price_1d_of
      SectorRotationScanner.price_5d_of SectorRotationScanner.price_20d_of spec_pct_change
    rw [h1, h2, h5, h5h, h20h]
    ring
  · simp only [SmartSectorBreakoutScanner.analyze_sector_strength]
    rw [if_neg (by omega)]
    unfold SectorRotationScanner.price_1d_of SectorRotationScanner.price_5d_of spec_pct_change
    rw [h1, h2, h5, h5h]
    exact congrArg some (by ring)

/-- C1 witness: the amended statement instantiated at the concrete
20-bar window `w_c1`. -/
theorem momentum_weights_amended_witness :
    20 ≤ w_c1.length ∧
    (SectorRotationScanner.momentum_score_of w_c1 =
      0.5 * spec_pct_change (iloc_neg w_c1 1).Close (iloc_neg w_c1 2).Close +
      0.3 * spec_pct_change (iloc_neg w_c1 1).Close (iloc_neg w_c1 5).Close +
      0.2 * spec_pct_change (iloc_neg w_c1 1).Close (iloc_neg w_c1 20).Close ∧
    SmartSectorBreakoutScanner.analyze_sector_strength (some w_c1) =
      some (0.5 * spec_pct_change (iloc_neg w_c1 1).Close (iloc_neg w_c1 2).Close +
        0.5 * spec_pct_change (iloc_neg w_c1 1).Close (iloc_neg w_c1 5).Close)) :=
  ⟨by decide, momentum_weights_amended w_c1 (by decide)⟩

/-- C2: the trend classification is a total function into the five
labels, evaluated in the stated priority order with first match
winning; in particular momentum 2.0 with positive volume trend is
STRONG BUY, not BUYING. -/
theorem trend_label_classification (m v : ℚ) :
    (trend_of m v = .STRONG_BUY ↔ (m > 1.5 ∧ v > 0)) ∧
    (trend_of m v = .BUYING ↔ (¬(m > 1.5 ∧ v > 0) ∧ m > 0.5)) ∧
    (trend_of m v = .STRONG_SELL ↔
      (¬(m > 1.5 ∧ v > 0) ∧ ¬(m > 0.5) ∧ (m < -1.5 ∧ v > 0))) ∧
    (trend_of m v = .SELLING ↔
      (¬(m > 1.5 ∧ v > 0) ∧ ¬(m > 0.5) ∧ ¬(m < -1.5 ∧ v > 0) ∧ m < -0.5)) ∧
    (trend_of m v = .NEUTRAL ↔
      (¬(m > 1.5 ∧ v > 0) ∧ ¬(m > 0.5) ∧ ¬(m < -1.5 ∧ v > 0) ∧ ¬(m < -0.5))) ∧
    trend_of 2 1 = .STRONG_BUY := by
  have hconc : trend_of 2 1 = .STRONG_BUY := by
    unfold trend_of
    norm_num
  refine ⟨?_, ?_, ?_, ?_, ?_, hconc⟩ <;>
    · unfold trend_of
      split_ifs with h1 h2 h3 h4 <;> simp_all

/-- C3: `check_breakout_quality` returns no candidate exactly when the
window is missing, has fewer than 30 bars, or today's close does not
exceed the prior high (the maximum high over the 20 bars immediately
preceding the most recent bar); no partial scores are emitted in that
case.  The last conjunct identifies the code's `prev_high` (computed on
the trailing-50 slice) with the specification's reading on the full
window. -/
theorem breakout_gate (df : List Bar) (t : String) :
    (SmartSectorBreakoutScanner.check_breakout_quality (some df) t = none ↔
      df.length < 30 ∨
        (SmartSectorBreakoutScanner.today_of df).Close ≤
          SmartSectorBreakoutScanner.prev_high_of df) ∧
    SmartSectorBreakoutScanner.check_breakout_quality none t = none ∧
    (30 ≤ df.length →
      SmartSectorBreakoutScanner.prev_high_of df = maxHigh (tail 20 df.dropLast) ∧
      (SmartSectorBreakoutScanner.today_of df).Close = (iloc_neg df 1).Close) := by
  refine ⟨?_, rfl, ?_⟩
  · simp only [SmartSectorBreakoutScanner.check_breakout_quality]
    split_ifs with h1 h2
    · simp [h1]
    · simp [h1, not_le.mpr h2]
    · simp [h1, not_lt.mp h2]
  · intro h
    constructor
    · unfold SmartSectorBreakoutScanner.prev_high_of
      rw [lookback_eq h]
    · unfold SmartSectorBreakoutScanner.today_of SmartSectorBreakoutScanner.recent_of
      rw [iloc_neg_tail (by omega)]

/-- C4: every produced breakout candidate's quality score is the sum of
the four tier sub-scores; each sub-score lies in [0, 25] and the sum in
[0, 100]; and the tier boundaries are exactly the claimed ones
(breakout % at 5/3/1, volume ratio at 3/2/1.5, trend 25/20/10/0,
consolidation range at 10%/15%/20%). -/
theorem quality_subscores (df : List Bar) (t : String)
    (c : SmartSectorBreakoutScanner.BreakoutCandidate)
    (h : SmartSectorBreakoutScanner.check_breakout_quality (some df) t = some c) :
    c.quality_score =
      SmartSectorBreakoutScanner.breakout_points (SmartSectorBreakoutScanner.breakout_pct_of df) +
      SmartSectorBreakoutScanner.volume_points (SmartSectorBreakoutScanner.volume_ratio_of df) +
      SmartSectorBreakoutScanner.trend_points (SmartSectorBreakoutScanner.above_sma10_of df)
        (SmartSectorBreakoutScanner.above_sma20_of df) (SmartSectorBreakoutScanner.uptrend_of df) +
      SmartSectorBreakoutScanner.consolidation_points
        (SmartSectorBreakoutScanner.price_range_of df) ∧
    0 ≤ c.quality_score ∧ c.quality_score ≤ 100 ∧
    (∀ p : ℚ, 0 ≤ SmartSectorBreakoutScanner.breakout_points p ∧
      SmartSectorBreakoutScanner.breakout_points p ≤ 25 ∧
      (5 < p → SmartSectorBreakoutScanner.breakout_points p = 25) ∧
      (3 < p ∧ p ≤ 5 → SmartSectorBreakoutScanner.breakout_points p = 20) ∧
      (1 < p ∧ p ≤ 3 → SmartSectorBreakoutScanner.breakout_points p = 15) ∧
      (p ≤ 1 → SmartSectorBreakoutScanner.breakout_points p = 10)) ∧
    (∀ r : ℚ, 0 ≤ SmartSectorBreakoutScanner.volume_points r ∧
      SmartSectorBreakoutScanner.volume_points r ≤ 25 ∧
      (3 < r → SmartSectorBreakoutScanner.volume_points r = 25) ∧
      (2 < r ∧ r ≤ 3 → SmartSectorBreakoutScanner.volume_points r = 20) ∧
      (1.5 < r ∧ r ≤ 2 → SmartSectorBreakoutScanner.volume_points r = 15) ∧
      (r ≤ 1.5 → SmartSectorBreakoutScanner.volume_points r = 5)) ∧
    (∀ a b u : Bool, 0 ≤ SmartSectorBreakoutScanner.trend_points a b u ∧
      SmartSectorBreakoutScanner.trend_points a b u ≤ 25 ∧
      SmartSectorBreakoutScanner.trend_points true true true = 25 ∧
      SmartSectorBreakoutScanner.trend_points true true false = 20 ∧
      SmartSectorBreakoutScanner.trend_points true false false = 10 ∧
      SmartSectorBreakoutScanner.trend_points false true false = 10 ∧
      SmartSectorBreakoutScanner.trend_points false false u = 0) ∧
    (∀ pr : ℚ, 0 ≤ SmartSectorBreakoutScanner.consolidation_points pr ∧
      SmartSectorBreakoutScanner.consolidation_points pr ≤ 25 ∧
      (pr < 0.10 → SmartSectorBreakoutScanner.consolidation_points pr = 25) ∧
      (0.10 ≤ pr ∧ pr < 0.15 → SmartSectorBreakoutScanner.consolidation_points pr = 20) ∧
      (0.15 ≤ pr ∧ pr < 0.20 → SmartSectorBreakoutScanner.consolidation_points pr = 15) ∧
      (0.20 ≤ pr → SmartSectorBreakoutScanner.consolidation_points pr = 5)) := by
  have hbp : ∀ p : ℚ, 0 ≤ SmartSectorBreakoutScanner.breakout_points p ∧
      SmartSectorBreakoutScanner.breakout_points p ≤ 25 := by
    intro p
    unfold SmartSectorBreakoutScanner.breakout_points
    split_ifs <;> norm_num
  have hvp : ∀ r : ℚ, 0 ≤ SmartSectorBreakoutScanner.volume_points r ∧
      SmartSectorBreakoutScanner.volume_points r ≤ 25 := by
    intro r
    unfold SmartSectorBreakoutScanner.volume_points
    split_ifs <;> norm_num
  have htp : ∀ a b u : Bool, 0 ≤ SmartSectorBreakoutScanner.trend_points a b u ∧
      SmartSectorBreakoutScanner.trend_points a b u ≤ 25 := by
    intro a b u
    unfold SmartSectorBreakoutScanner.trend_points
    split_ifs <;> norm_num
  have hcp : ∀ pr : ℚ, 0 ≤ SmartSectorBreakoutScanner.consolidation_points pr ∧
      SmartSectorBreakoutScanner.consolidation_points pr ≤ 25 := by
    intro pr
    unfold SmartSectorBreakoutScanner.consolidation_points
    split_ifs <;> norm_num
  have hq : c.quality_score =
      SmartSectorBreakoutScanner.breakout_points (SmartSectorBreakoutScanner.breakout_pct_of df) +
      SmartSectorBreakoutScanner.volume_points (SmartSectorBreakoutScanner.volume_ratio_of df) +
      SmartSectorBreakoutScanner.trend_points (SmartSectorBreakoutScanner.above_sma10_of df)
        (SmartSectorBreakoutScanner.above_sma20_of df) (SmartSectorBreakoutScanner.uptrend_of df) +
      SmartSectorBreakoutScanner.consolidation_points
        (SmartSectorBreakoutScanner.price_range_of df) := by
    simp only [SmartSectorBreakoutScanner.check_breakout_quality] at h
    split_ifs at h
    · injection h with h
      subst h
      rfl
  refine ⟨hq, ?_, ?_, ?_, ?_, ?_, ?_⟩
  · rw [hq]
    have b1 := hbp (SmartSectorBreakoutScanner.breakout_pct_of df)
    have b2 := hvp (SmartSectorBreakoutScanner.volume_ratio_of df)
    have b3 := htp (SmartSectorBreakoutScanner.above_sma10_of df)
      (SmartSectorBreakoutScanner.above_sma20_of df) (SmartSectorBreakoutScanner.uptrend_of df)
    have b4 := hcp (SmartSectorBreakoutScanner.price_range_of df)
    omega
  · rw [hq]
    have b1 := hbp (SmartSectorBreakoutScanner.breakout_pct_of df)
    have b2 := hvp (SmartSectorBreakoutScanner.volume_ratio_of df)
    have b3 := htp (SmartSectorBreakoutScanner.above_sma10_of df)
      (SmartSectorBreakoutScanner.above_sma20_of df) (SmartSectorBreakoutScanner.uptrend_of df)
    have b4 := hcp (SmartSectorBreakoutScanner.price_range_of df)
    omega
  · intro p
    refine ⟨(hbp p).1, (hbp p).2, ?_, ?_, ?_, ?_⟩ <;>
      · unfold SmartSectorBreakoutScanner.breakout_points
        intro hcond
        split_ifs <;> first | rfl | (exfalso; push_neg at *; linarith)
  · intro r
    refine ⟨(hvp r).1, (hvp r).2, ?_, ?_, ?_, ?_⟩ <;>
      · unfold SmartSectorBreakoutScanner.volume_points
        intro hcond
        split_ifs <;> first | rfl | (exfalso; push_neg at *; linarith)
  · intro a b u
    refine ⟨(htp a b u).1, (htp a b u).2, by rfl, by rfl, by rfl, by rfl, ?_⟩
    unfold SmartSectorBreakoutScanner.trend_points
    simp
  · intro pr
    refine ⟨(hcp pr).1, (hcp pr).2, ?_, ?_, ?_, ?_⟩ <;>
      · unfold SmartSectorBreakoutScanner.consolidation_points
        intro hcond
        split_ifs <;> first | rfl | (exfalso; push_neg at *; linarith)

/-- C4 witness: the sub-score decomposition and bounds instantiated at
the concrete breakout window `w100`, whose candidate scores 100. -/
theorem quality_subscores_witness :
    cand100.quality_score =
      SmartSectorBreakoutScanner.breakout_points (SmartSectorBreakoutScanner.breakout_pct_of w100) +
      SmartSectorBreakoutScanner.volume_points (SmartSectorBreakoutScanner.volume_ratio_of w100) +
      SmartSectorBreakoutScanner.trend_points (SmartSectorBreakoutScanner.above_sma10_of w100)
        (SmartSectorBreakoutScanner.above_sma20_of w100)
        (SmartSectorBreakoutScanner.uptrend_of w100) +
      SmartSectorBreakoutScanner.consolidation_points
        (SmartSectorBreakoutScanner.price_range_of w100) ∧
    0 ≤ cand100.quality_score ∧ cand100.quality_score ≤ 100 :=
  ⟨(quality_subscores w100 "X" cand100 w100_check).1,
   (quality_subscores w100 "X" cand100 w100_check).2.1,
   (quality_subscores w100 "X" cand100 w100_check).2.2.1⟩

/-- C5: the sentiment adjustment adds exactly 10 when the average
sentiment exceeds 0.2, subtracts exactly 10 below -0.2, and otherwise
leaves the score unchanged; with no sentiment data the score is
unchanged and `news_count` is 0; no re-clamping is performed, and on
the reachable candidate `cand100` (base score 100) a 0.3 sentiment
pushes the score to 110, outside [0, 100]. -/
theorem sentiment_adjustment (b : SmartSectorBreakoutScanner.BreakoutCandidate)
    (n : SmartSectorBreakoutScanner.NewsSummary) :
    (SmartSectorBreakoutScanner.apply_news b (some n)).quality_score =
      (if n.avg_sentiment > 0.2 then b.quality_score + 10
       else if n.avg_sentiment < -0.2 then b.quality_score - 10
       else b.quality_score) ∧
    (SmartSectorBreakoutScanner.apply_news b (some n)).news_count = n.news_count ∧
    (SmartSectorBreakoutScanner.apply_news b none).quality_score = b.quality_score ∧
    (SmartSectorBreakoutScanner.apply_news b none).news_count = 0 ∧
    SmartSectorBreakoutScanner.check_breakout_quality (some w100) "X" = some cand100 ∧
    cand100.quality_score = 100 ∧
    (SmartSectorBreakoutScanner.apply_news cand100
      (some { avg_sentiment := 3/10, news_count := 1 })).quality_score = 110 := by
  refine ⟨?_, ?_, rfl, rfl, w100_check, rfl, ?_⟩
  · simp only [SmartSectorBreakoutScanner.apply_news]
    split_ifs <;> rfl
  · simp only [SmartSectorBreakoutScanner.apply_news]
    split_ifs <;> rfl
  · simp only [SmartSectorBreakoutScanner.apply_news]
    rw [if_pos (by norm_num)]
    show cand100.quality_score + 10 = 110
    rfl

/-- C6: both sector rankings are stable: any two records with equal
momentum score keep their input enumeration order — in the DataFrame
ranking of `scan_sector_rotation` (pandas `sort_values` on the at most
13-row sector frame) and in the Python `sorted` ranking of the breakout
scanner. -/
theorem sector_ranking_stable :
    (∀ (results : List SectorRotationScanner.SectorMetrics) (i j : ℕ)
      (hi : i < results.length) (hj : j < results.length),
      i < j →
      (results.get ⟨i, hi⟩).Momentum_Score = (results.get ⟨j, hj⟩).Momentum_Score →
      List.Sublist [results.get ⟨i, hi⟩, results.get ⟨j, hj⟩]
        (SectorRotationScanner.rank_sectors results)) ∧
    (∀ (scores : List (String × ℚ)) (i j : ℕ)
      (hi : i < scores.length) (hj : j < scores.length),
      i < j →
      (scores.get ⟨i, hi⟩).2 = (scores.get ⟨j, hj⟩).2 →
      List.Sublist [scores.get ⟨i, hi⟩, scores.get ⟨j, hj⟩]
        (SmartSectorBreakoutScanner.sorted_sectors scores)) := by
  constructor
  · intro results i j hi hj hij hkey
    exact pandas_sort_values_desc_stable _ results hi hj hij hkey
  · intro scores i j hi hj hij hkey
    exact stable_sort_desc_stable _ scores hi hj hij hkey

/-- C6 witness: two sector records with equal momentum score keep
their order through both rankings. -/
theorem sector_ranking_stable_witness :
    List.Sublist [metricsA, metricsB]
      (SectorRotationScanner.rank_sectors [metricsA, metricsB]) ∧
    List.Sublist [("Technology", (1 : ℚ)), ("Financials", (1 : ℚ))]
      (SmartSectorBreakoutScanner.sorted_sectors [("Technology", 1), ("Financials", 1)]) :=
  ⟨sector_ranking_stable.1 [metricsA, metricsB] 0 1 (by decide) (by decide)
      (by decide) rfl,
   sector_ranking_stable.2 [("Technology", 1), ("Financials", 1)] 0 1 (by decide) (by decide)
      (by decide) rfl⟩

/-- C7: the selected sector is the highest-momentum analysed sector
with a non-empty configured stock universe — sectors without one are
skipped — and when no analysed sector has one, selection is empty and
the pipeline stops in the distinct `no_eligible_sector` outcome,
scanning no stocks. -/
theorem strongest_eligible_sector :
    (∀ (scores : List (String × ℚ)) (stocks : String → List String),
      (SmartSectorBreakoutScanner.select_strongest scores stocks = none ↔
        ∀ p ∈ scores, stocks p.1 = []) ∧
      (∀ (s : String) (m : ℚ),
        SmartSectorBreakoutScanner.select_strongest scores stocks = some (s, m) →
        (s, m) ∈ scores ∧ stocks s ≠ [] ∧
          ∀ q ∈ scores, stocks q.1 ≠ [] → q.2 ≤ m)) ∧
    (∀ (data : String → Option (List Bar))
      (news : String → Option (List SmartSectorBreakoutScanner.NewsItem))
      (etfs : List (String × String)) (stocks : String → List String),
      ¬ (SmartSectorBreakoutScanner.build_sector_scores data etfs).isEmpty →
      SmartSectorBreakoutScanner.select_strongest
        (SmartSectorBreakoutScanner.build_sector_scores data etfs) stocks = none →
      SmartSectorBreakoutScanner.main_pipeline data news etfs stocks =
        SmartSectorBreakoutScanner.ScanOutcome.no_eligible_sector) := by
  constructor
  · intro scores stocks
    exact ⟨select_strongest_none_iff scores stocks, fun s m h => select_strongest_some h⟩
  · intro data news etfs stocks hne hnone
    simp only [SmartSectorBreakoutScanner.main_pipeline]
    rw [if_neg (by simpa using hne), hnone]

/-- C7 witness: with one analysed sector whose universe is empty,
selection is empty; with a configured universe only for the
lower-momentum sector, that sector is selected and is maximal among
eligible ones. -/
theorem strongest_eligible_sector_witness :
    SmartSectorBreakoutScanner.select_strongest [("A", 2)] (fun _ => []) = none ∧
    (("B", (1 : ℚ)) ∈ [("A", (2 : ℚ)), ("B", (1 : ℚ))] ∧
      (fun s => if s = "B" then ["S1"] else []) "B" ≠ [] ∧
      ∀ q ∈ [("A", (2 : ℚ)), ("B", (1 : ℚ))],
        (fun s => if s = "B" then ["S1"] else []) q.1 ≠ [] → q.2 ≤ 1) :=
  ⟨((strongest_eligible_sector.1 [("A", 2)] (fun _ => [])).1).mpr
      (by intro p hp; rfl),
   (strongest_eligible_sector.1 [("A", 2), ("B", 1)]
      (fun s => if s = "B" then ["S1"] else [])).2 "B" 1
      (by rw [SmartSectorBreakoutScanner.select_strongest]; with_unfolding_all decide)⟩

/-- C8: the momentum analysis returns `None` exactly on a failed fetch
or a window of fewer than 20 bars, and `scan_sector_rotation` then
skips that sector and scans the rest unchanged — one instrument's
insufficient data never aborts the scan. -/
theorem insufficient_data_skipped :
    (∀ (df : List Bar) (t n : String),
      (SectorRotationScanner.analyze_sector_strength (some df) t n = none ↔
        df.length < 20) ∧
      SectorRotationScanner.analyze_sector_strength none t n = none) ∧
    (∀ (data : String → Option (List Bar)) (pre post : List (String × String)) (t n : String),
      SectorRotationScanner.analyze_sector_strength (data t) t n = none →
      SectorRotationScanner.scan_sector_rotation data (pre ++ (t, n) :: post) =
        SectorRotationScanner.scan_sector_rotation data (pre ++ post)) := by
  constructor
  · intro df t n
    constructor
    · simp only [SectorRotationScanner.analyze_sector_strength]
      split_ifs with h
      · simp [h]
      · simp [h]
    · rfl
  · intro data pre post t n h
    have h' : (fun p : String × String =>
        SectorRotationScanner.analyze_sector_strength (data p.1) p.1 p.2) (t, n) = none := h
    simp only [SectorRotationScanner.scan_sector_rotation, List.filterMap_append,
      List.filterMap_cons, h']

/-- C8 witness: a 3-bar "XLF" series is skipped and the scan over the
remaining sectors is unchanged. -/
theorem insufficient_data_skipped_witness :
    SectorRotationScanner.analyze_sector_strength (dataC8 "XLF") "XLF" "Financials" = none ∧
    SectorRotationScanner.scan_sector_rotation dataC8
        ([("XLK", "Technology")] ++ ("XLF", "Financials") :: [("XLV", "Healthcare")]) =
      SectorRotationScanner.scan_sector_rotation dataC8
        ([("XLK", "Technology")] ++ [("XLV", "Healthcare")]) :=
  ⟨by with_unfolding_all rfl,
   insufficient_data_skipped.2 dataC8 [("XLK", "Technology")] [("XLV", "Healthcare")]
     "XLF" "Financials" (by with_unfolding_all rfl)⟩

/-- C9: the `if momentum:` truthiness test drops a sector whose quick
momentum is exactly 0.0 from `sector_scores`, so every ranked entry is
non-zero, a zero-momentum sector leaves the sector table exactly as if
it had failed, and the selected strongest sector can never carry
momentum 0 — even when every other sector is negative. -/
theorem zero_momentum_excluded :
    (∀ (data : String → Option (List Bar)) (etfs : List (String × String)) (p : String × ℚ),
      p ∈ SmartSectorBreakoutScanner.build_sector_scores data etfs → p.2 ≠ 0) ∧
    (∀ (data : String → Option (List Bar)) (pre post : List (String × String))
      (etf name : String),
      SmartSectorBreakoutScanner.analyze_sector_strength (data etf) = some 0 →
      SmartSectorBreakoutScanner.build_sector_scores data (pre ++ (etf, name) :: post) =
        SmartSectorBreakoutScanner.build_sector_scores data (pre ++ post)) ∧
    (∀ (data : String → Option (List Bar)) (etfs : List (String × String))
      (stocks : String → List String) (s : String) (m : ℚ),
      SmartSectorBreakoutScanner.select_strongest
        (SmartSectorBreakoutScanner.build_sector_scores data etfs) stocks = some (s, m) →
      m ≠ 0) := by
  have h1 : ∀ (data : String → Option (List Bar)) (etfs : List (String × String))
      (p : String × ℚ),
      p ∈ SmartSectorBreakoutScanner.build_sector_scores data etfs → p.2 ≠ 0 := by
    intro data etfs p hp
    simp only [SmartSectorBreakoutScanner.build_sector_scores, List.mem_filterMap] at hp
    obtain ⟨q, _, hf⟩ := hp
    rcases hh : SmartSectorBreakoutScanner.analyze_sector_strength (data q.1) with _ | mm
    · rw [hh] at hf
      simp at hf
    · rw [hh] at hf
      by_cases hmm : mm ≠ 0
      · rw [show (match some mm with
            | some momentum =>
              if momentum ≠ 0 then some (q.2, momentum) else none
            | none => none) = (if mm ≠ 0 then some (q.2, mm) else none) from rfl,
          if_pos hmm] at hf
        injection hf with hf
        rw [← hf]
        simpa using hmm
      · rw [show (match some mm with
            | some momentum =>
              if momentum ≠ 0 then some (q.2, momentum) else none
            | none => none) = (if mm ≠ 0 then some (q.2, mm) else none) from rfl,
          if_neg hmm] at hf
        simp at hf
  refine ⟨h1, ?_, ?_⟩
  · intro data pre post etf name h
    have h' : (fun p : String × String =>
        match SmartSectorBreakoutScanner.analyze_sector_strength (data p.1) with
        | some momentum => if momentum ≠ 0 then some (p.2, momentum) else none
        | none => none) (etf, name) = none := by
      simp only [h]
      norm_num
    simp only [SmartSectorBreakoutScanner.build_sector_scores, List.filterMap_append,
      List.filterMap_cons, h']
  · intro data etfs stocks s m h
    exact h1 data etfs (s, m) (select_strongest_some h).1

/-- C9 witness: Technology's momentum is exactly 0 and is excluded;
the scan selects Financials at momentum -1 even though 0 > -1. -/
theorem zero_momentum_excluded_witness :
    SmartSectorBreakoutScanner.analyze_sector_strength (dataC9 "XLK") = some 0 ∧
    SmartSectorBreakoutScanner.select_strongest
      (SmartSectorBreakoutScanner.build_sector_scores dataC9 etfsC9) stocksC9 =
      some ("Financials", -1) ∧
    (-1 : ℚ) ≠ 0 :=
  ⟨by rw [dataC9_XLK]; exact w_zero_analyze,
   selectC9,
   zero_momentum_excluded.2.2 dataC9 etfsC9 stocksC9 "Financials" (-1) selectC9⟩

/-- C10: the `if ticker_sentiment:` truthiness test drops news items
whose matched sentiment score is exactly 0.0, so a ticker all of whose
matched items carry score 0.0 gets "no sentiment data": the summary is
`None`, the quality score is unchanged and `news_count` is 0 — not an
average of 0. -/
theorem zero_sentiment_excluded
    (feed : List SmartSectorBreakoutScanner.NewsItem) (t : String)
    (b : SmartSectorBreakoutScanner.BreakoutCandidate)
    (h : ∀ item ∈ feed, ∀ td : SmartSectorBreakoutScanner.TickerSentiment,
      item.ticker_sentiment.find? (fun td => td.ticker == t) = some td →
      td.ticker_sentiment_score = 0) :
    SmartSectorBreakoutScanner.get_news_sentiment (some feed) t = none ∧
    (SmartSectorBreakoutScanner.apply_news b
      (SmartSectorBreakoutScanner.get_news_sentiment (some feed) t)).quality_score =
      b.quality_score ∧
    (SmartSectorBreakoutScanner.apply_news b
      (SmartSectorBreakoutScanner.get_news_sentiment (some feed) t)).news_count = 0 := by
  have hnone : SmartSectorBreakoutScanner.get_news_sentiment (some feed) t = none := by
    simp only [SmartSectorBreakoutScanner.get_news_sentiment]
    simp [List.filterMap_eq_nil_iff]
    intro _ item him
    rcases hh : item.ticker_sentiment.find? (fun td => td.ticker == t) with _ | td
    · simp [hh]
    · have hz := h item (List.mem_of_mem_take him) td hh
      simp [hh, hz]
  rw [hnone]
  exact ⟨rfl, rfl, rfl⟩

/-- C10 witness: a feed with one matching item of sentiment exactly 0.0
yields no sentiment data and leaves the candidate untouched. -/
theorem zero_sentiment_excluded_witness :
    SmartSectorBreakoutScanner.get_news_sentiment (some feedZ) "AAPL" = none ∧
    (SmartSectorBreakoutScanner.apply_news cand100
      (SmartSectorBreakoutScanner.get_news_sentiment (some feedZ) "AAPL")).quality_score =
      cand100.quality_score ∧
    (SmartSectorBreakoutScanner.apply_news cand100
      (SmartSectorBreakoutScanner.get_news_sentiment (some feedZ) "AAPL")).news_count = 0 :=
  zero_sentiment_excluded feedZ "AAPL" cand100 (by
    intro item him td htd
    simp only [feedZ, List.mem_singleton] at him
    subst him
    simp only [List.find?] at htd
    simp at htd
    rw [← htd])

/-- C3 witness: the prior-high identification of the gate instantiated
at the 30-bar breakout window `w100`. -/
theorem breakout_gate_witness :
    SmartSectorBreakoutScanner.prev_high_of w100 = maxHigh (tail 20 w100.dropLast) ∧
    (SmartSectorBreakoutScanner.today_of w100).Close = (iloc_neg w100 1).Close :=
  (breakout_gate w100 "X").2.2 (by rw [w100_len])
